import Mathlib

/-!
Shallow embedding of the retransmit stage (`core/src/retransmit_stage.rs`)
of a Solana-style validator, together with theorems checking the
natural-language specification of the stage against the code.

Conventions of the embedding:
* machine integers (`u64`, `usize`, `Slot`) become `Nat`; none of the
  quantities involved here (timestamps, counters, slot numbers) can
  overflow in the claims under consideration;
* a peer address (`SocketAddr`) and a public key (`Pubkey`) are opaque
  and become `Nat`;
* a shred payload (`Vec<u8>`) becomes `List Nat`;
* the `&mut self` style of the Rust code becomes explicit state passing:
  every operation returns the updated state next to its result;
* wall-clock inputs (`timestamp()`, elapsed-time checks) become explicit
  parameters of the environment.
-/

/-- Kind of a shred (`ShredType` in `solana_ledger::shred`): data or coding. -/
inductive ShredType where
  | data : ShredType
  | code : ShredType
deriving DecidableEq, Repr

/-- Logical position of a shred: the tuple `(slot, index, kind)`
(`ShredId` in `solana_ledger::shred`). -/
abbrev ShredId := Nat × Nat × ShredType

/-- A shred as far as the retransmit stage observes it: its slot, its
index, its kind and its payload bytes. -/
structure Shred where
  slot : Nat
  index : Nat
  shred_type : ShredType
  payload : List Nat
deriving DecidableEq, Repr

/-- The id accessor `Shred::id`, returning the `(slot, index, kind)` tuple. -/
def Shred.id (s : Shred) : ShredId := (s.slot, s.index, s.shred_type)

/-- Modelled from the spec: `Deduper` of `solana_perf::sigverify` (a
dependency of the file, not itself under the sources in scope) is a
probabilistic set with a `test-and-insert` operation (§3, §4.1 of the
spec).  The claims are all stated modulo the configured false-positive
rate, so the filter is modelled as an exact set of previously inserted
elements. -/
structure Deduper (α : Type) where
  elems : List α

/-- Modelled from the spec: `Deduper::dedup` is test-and-insert; it
returns `true` when the element was already present, and otherwise
inserts it and returns `false`. -/
def Deduper.dedup {α : Type} [DecidableEq α] (d : Deduper α) (x : α) :
    Bool × Deduper α :=
  if x ∈ d.elems then (true, d) else (false, ⟨x :: d.elems⟩)

/-- Modelled from the spec: `Deduper::maybe_reset` rebuilds the filter
with fresh seeds when the saturation and cycle conditions both hold
(§4.1).  The time/saturation condition is abstracted into the Boolean
`due`; a rebuilt filter is empty. -/
def Deduper.maybe_reset {α : Type} (d : Deduper α) (due : Bool) : Deduper α :=
  if due then ⟨[]⟩ else d

/-- `MAX_DUPLICATE_COUNT` of `retransmit_stage.rs`: the number of
distinct shred encodings retransmitted per `ShredId`. -/
def MAX_DUPLICATE_COUNT : Nat := 2

/-- `SLOT_STATS_CACHE_CAPACITY` of `RetransmitStats`: capacity of the
slot-stats LRU cache. -/
def SLOT_STATS_CACHE_CAPACITY : Nat := 750

/-- The two-stage `ShredDeduper` state: a filter over raw payloads and a
filter over `(ShredId, k)` pairs for `k < MAX_DUPLICATE_COUNT`. -/
structure ShredDeduper where
  deduper : Deduper (List Nat)
  shred_id_filter : Deduper (ShredId × Nat)

/-- `ShredDeduper::new`: both filters start fresh (the rng seeds and the
bit count only govern the false positive rate, which the exact-set model
abstracts away). -/
def ShredDeduper.new : ShredDeduper := ⟨⟨[]⟩, ⟨[]⟩⟩

/-- The side-effecting `(0..max_duplicate_count).all(|i| self.shred_id_filter.dedup(&(key, i)))`
iteration inside `ShredDeduper::dedup`.  `Iterator::all` stops at the
first `false`, so later indices are not tested (and not inserted) once
some index `i` is fresh. -/
def dedupIdAll (key : ShredId) :
    Deduper (ShredId × Nat) → List Nat → Bool × Deduper (ShredId × Nat)
  | d, [] => (true, d)
  | d, i :: rest =>
    let r := d.dedup (key, i)
    if r.1 then dedupIdAll key r.2 rest else (false, r.2)

/-- `ShredDeduper::dedup`: drop the shred (`true`) when its exact payload
was seen before, or when all `max_duplicate_count` id-filter slots for
its `ShredId` are already claimed.  The Rust `||` is short-circuit: the
id filter is not touched when the payload filter hits. -/
def ShredDeduper.dedup (sd : ShredDeduper) (shred : Shred)
    (max_duplicate_count : Nat) : Bool × ShredDeduper :=
  let key := shred.id
  let r := sd.deduper.dedup shred.payload
  if r.1 then (true, { sd with deduper := r.2 })
  else
    let r2 := dedupIdAll key sd.shred_id_filter (List.range max_duplicate_count)
    (r2.1, { deduper := r.2, shred_id_filter := r2.2 })

/-- `ShredDeduper::maybe_reset` applies `maybe_reset` to both filters.
The due conditions are abstracted into one flag. -/
def ShredDeduper.maybe_reset (sd : ShredDeduper) (due : Bool) : ShredDeduper :=
  ⟨sd.deduper.maybe_reset due, sd.shred_id_filter.maybe_reset due⟩

/-- `check_if_first_shred_received`: returns whether this is the first
time a shred for `shred_slot` is received, threading the
`first_shreds_received` set (the `BTreeSet<Slot>` behind the mutex)
explicitly.  `split_off(&(root_slot + 1))` keeps exactly the elements
`> root_slot`. -/
def check_if_first_shred_received (shred_slot : Nat)
    (first_shreds_received : Finset Nat) (root_bank_slot : Nat) :
    Bool × Finset Nat :=
  if shred_slot ≤ root_bank_slot then (false, first_shreds_received)
  else if shred_slot ∈ first_shreds_received then (false, first_shreds_received)
  else
    let s := insert shred_slot first_shreds_received
    if 100 < s.card then (true, s.filter (fun x => root_bank_slot < x))
    else (true, s)

/-- Per-slot retransmit counters (`RetransmitSlotStats`). -/
structure RetransmitSlotStats where
  asof : Nat
  outset : Nat
  num_shreds_received : Fin 3 → Nat
  num_shreds_sent : Fin 3 → Nat

/-- The `Default` instance for `RetransmitSlotStats`: everything zero. -/
def RetransmitSlotStats.default : RetransmitSlotStats :=
  ⟨0, 0, fun _ => 0, fun _ => 0⟩

/-- `RetransmitSlotStats::record`. -/
def RetransmitSlotStats.record (s : RetransmitSlotStats) (now : Nat)
    (root_distance : Fin 3) (num_nodes : Nat) : RetransmitSlotStats :=
  { s with
    outset := if s.outset = 0 then now else min s.outset now
    asof := max s.asof now
    num_shreds_received :=
      Function.update s.num_shreds_received root_distance
        (s.num_shreds_received root_distance + 1)
    num_shreds_sent :=
      Function.update s.num_shreds_sent root_distance
        (s.num_shreds_sent root_distance + num_nodes) }

/-- `impl AddAssign for RetransmitSlotStats` as a pure function: the
result of `self += other`. -/
def RetransmitSlotStats.add (self other : RetransmitSlotStats) :
    RetransmitSlotStats :=
  { asof := max self.asof other.asof
    outset := if self.outset = 0 then other.outset
              else min self.outset other.outset
    num_shreds_received := fun k =>
      self.num_shreds_received k + other.num_shreds_received k
    num_shreds_sent := fun k =>
      self.num_shreds_sent k + other.num_shreds_sent k }

/-- The merge law on `outset` as the spec words it: the minimum of the
two non-zero values, with `0` treated as unset, so that a zero operand
never overwrites a non-zero one.  This definition follows the spec's
words, for comparison with `RetransmitSlotStats.add` from the source. -/
def outsetMergeSpec (x y : Nat) : Nat :=
  if x = 0 then y else if y = 0 then x else min x y

/-- Worker-pool size computed by `retransmitter`:
`get_thread_count().min(8).max(sockets.len())`. -/
def num_threads (get_thread_count socket_count : Nat) : Nat :=
  max (min get_thread_count 8) socket_count

/-- The slot-stats LRU cache (`LruCache<Slot, RetransmitSlotStats>`),
modelled as a list sorted by recency with the least-recently-used entry
at the head: `pop_lru` pops the head, and an insert or a `get_mut` hit
moves the entry to the back. -/
abbrev SlotStatsCache := List (Nat × RetransmitSlotStats)

/-- One iteration of the `for (slot, slot_stats) in feed` loop of
`RetransmitStats::upsert_slot_stats`: on a hit, `*entry += slot_stats`
(and the LRU promotes the entry); on a miss, `put` inserts the entry as
most recently used. -/
def cacheUpsert (c : SlotStatsCache) (slot : Nat)
    (slot_stats : RetransmitSlotStats) : SlotStatsCache :=
  match c.lookup slot with
  | none => c ++ [(slot, slot_stats)]
  | some entry =>
    c.eraseP (fun e => e.1 == slot) ++ [(slot, entry.add slot_stats)]

/-- The insertion phase of `upsert_slot_stats` over the whole feed. -/
def insertFeed (c : SlotStatsCache)
    (feed : List (Nat × RetransmitSlotStats)) : SlotStatsCache :=
  feed.foldl (fun acc e => cacheUpsert acc e.1 e.2) c

/-- The capacity loop of `upsert_slot_stats`: while the cache holds more
than `SLOT_STATS_CACHE_CAPACITY` entries, pop the least-recently-used
entry and submit its counters.  Returns the remaining cache and the
submitted entries in submission order. -/
def evictLoop (c : SlotStatsCache) :
    SlotStatsCache × List (Nat × RetransmitSlotStats) :=
  if SLOT_STATS_CACHE_CAPACITY < c.length then
    match c with
    | [] => ([], [])
    | e :: rest =>
      let r := evictLoop rest
      (r.1, e :: r.2)
  else (c, [])

/-- `RetransmitStats::upsert_slot_stats`: upsert the feed into the cache,
then evict (and submit) down to capacity.  Returns the new cache and the
list of `retransmit-stage-slot-stats` records emitted, in order. -/
def upsert_slot_stats (c : SlotStatsCache)
    (feed : List (Nat × RetransmitSlotStats)) :
    SlotStatsCache × List (Nat × RetransmitSlotStats) :=
  evictLoop (insertFeed c feed)

/-- `RecvTimeoutError` of `crossbeam_channel`. -/
inductive RecvTimeoutError where
  | timeout : RecvTimeoutError
  | disconnected : RecvTimeoutError
deriving DecidableEq, Repr

/-- Environment of one `retransmit` call: the external collaborators
(fork state, leader schedule, cluster-nodes cache, address policy,
clock, transport) as observed during the call. -/
structure RetransmitEnv where
  /-- `root_bank.slot()`. -/
  root_bank_slot : Nat
  /-- `leader_schedule_cache.slot_leader_at(slot, Some(&working_bank))`. -/
  slot_leader_at : Nat → Option Nat
  /-- `cluster_nodes.get_retransmit_addrs(slot_leader, shred, root_bank, DATA_PLANE_FANOUT)`:
  the root distance (0, 1 or 2) and the raw address list. -/
  get_retransmit_addrs : Nat → Shred → Fin 3 × List Nat
  /-- `ContactInfo::is_valid_address(addr, socket_addr_space)`. -/
  is_valid_address : Nat → Bool
  /-- `timestamp()` during the batch. -/
  now : Nat
  /-- Whether the `maybe_reset` saturation/cycle conditions hold. -/
  deduper_reset_due : Bool
  /-- Whether `SUBMIT_CADENCE` has elapsed (`maybe_submit`). -/
  submit_due : Bool
  /-- Number of packets failed by `multi_target_send` for a given shred
  and address list (`0` models `Ok(())`). -/
  send_num_failed : Shred → List Nat → Nat

/-- The mutable state the retransmit loop threads between batches: the
deduper, the `MaxSlots::retransmit` watermark, the first-shreds tracker,
and the `RetransmitStats` counters together with the slot-stats cache.
The timing counters (`total_time`, `epoch_fetch`, ...) measure wall
clock only and are not modelled. -/
structure RetransmitState where
  shred_deduper : ShredDeduper
  max_slots_retransmit : Nat
  first_shreds_received : Finset Nat
  num_shreds : Nat
  total_batches : Nat
  num_shreds_skipped : Nat
  unknown_shred_slot_leader : Nat
  num_nodes : Nat
  num_addrs_failed : Nat
  slot_stats : SlotStatsCache

/-- A fresh `RetransmitState`, as built at `retransmitter` startup. -/
def RetransmitState.new : RetransmitState :=
  ⟨ShredDeduper.new, 0, ∅, 0, 0, 0, 0, 0, 0, []⟩

/-- Observable outcome of the `retransmit_shred` closure on one shred:
the `Option<(root_distance, num_nodes)>` it returns, the updated state,
the datagram sends it issued (payload with filtered address list), and
the `FirstShredReceived` notifications it pushed. -/
structure RetransmitShredOut where
  result : Option (Fin 3 × Nat)
  state : RetransmitState
  sends : List (List Nat × List Nat)
  notifications : List Nat

/-- The `retransmit_shred` closure of `retransmit`: dedup, watermark
update, first-shred notification (only when an RPC subscription sink is
configured), leader lookup, address computation and filtering, and the
scatter send. -/
def retransmit_shred (env : RetransmitEnv) (rpc_subscriptions : Bool)
    (st : RetransmitState) (shred : Shred) : RetransmitShredOut :=
  let d := st.shred_deduper.dedup shred MAX_DUPLICATE_COUNT
  if d.1 then
    ⟨none,
     { st with shred_deduper := d.2,
               num_shreds_skipped := st.num_shreds_skipped + 1 },
     [], []⟩
  else
    let st1 := { st with shred_deduper := d.2,
                         max_slots_retransmit :=
                           max st.max_slots_retransmit shred.slot }
    let fs :=
      if rpc_subscriptions then
        check_if_first_shred_received shred.slot st1.first_shreds_received
          env.root_bank_slot
      else (false, st1.first_shreds_received)
    let st2 := { st1 with first_shreds_received := fs.2 }
    let notifs := if fs.1 then [shred.slot] else []
    match env.slot_leader_at shred.slot with
    | none =>
      ⟨none,
       { st2 with unknown_shred_slot_leader :=
                    st2.unknown_shred_slot_leader + 1 },
       [], notifs⟩
    | some slot_leader =>
      let ra := env.get_retransmit_addrs slot_leader shred
      let addrs := ra.2.filter env.is_valid_address
      let num_failed := env.send_num_failed shred addrs
      let nn := addrs.length - num_failed
      ⟨some (ra.1, nn),
       { st2 with num_nodes := st2.num_nodes + nn,
                  num_addrs_failed := st2.num_addrs_failed + num_failed },
       [(shred.payload, addrs)], notifs⟩

/-- The fold body building the per-batch `HashMap<Slot, RetransmitSlotStats>`:
`acc.entry(slot).or_default()` followed by `record(now, root_distance, num_nodes)`.
The map is an association list; the entry order is immaterial. -/
def slotStatsMapRecord (m : List (Nat × RetransmitSlotStats))
    (slot now : Nat) (root_distance : Fin 3) (num_nodes : Nat) :
    List (Nat × RetransmitSlotStats) :=
  match m.lookup slot with
  | none =>
    m ++ [(slot, RetransmitSlotStats.default.record now root_distance num_nodes)]
  | some s =>
    m.eraseP (fun e => e.1 == slot) ++
      [(slot, s.record now root_distance num_nodes)]

/-- Outcome of the per-batch shred loop: final state, the folded per-slot
stats map, the sends issued, and the notifications pushed. -/
structure RetransmitBatchOut where
  state : RetransmitState
  slot_stats_map : List (Nat × RetransmitSlotStats)
  sends : List (List Nat × List Nat)
  notifications : List Nat

/-- The per-batch loop over the shreds (the `par_iter` / `filter_map` /
`fold` pipeline, modelled sequentially: the claims under consideration
are order-insensitive): skipped shreds contribute nothing to the
slot-stats map. -/
def retransmitShreds (env : RetransmitEnv) (rpc_subscriptions : Bool) :
    List Shred → RetransmitState → List (Nat × RetransmitSlotStats) →
    RetransmitBatchOut
  | [], st, acc => ⟨st, acc, [], []⟩
  | shred :: rest, st, acc =>
    let out := retransmit_shred env rpc_subscriptions st shred
    let acc' :=
      match out.result with
      | none => acc
      | some rn => slotStatsMapRecord acc shred.slot env.now rn.1 rn.2
    let r := retransmitShreds env rpc_subscriptions rest out.state acc'
    ⟨r.state, r.slot_stats_map, out.sends ++ r.sends,
     out.notifications ++ r.notifications⟩

/-- `RetransmitStats::maybe_submit`: when the 2-second cadence has
elapsed, the counters are submitted and replaced by fresh zeros, with
the slot-stats cache carried over unchanged (`self.slot_stats = old.slot_stats`). -/
def maybe_submit (st : RetransmitState) (due : Bool) : RetransmitState :=
  if due then
    { st with num_shreds := 0, total_batches := 0, num_shreds_skipped := 0,
              unknown_shred_slot_leader := 0, num_nodes := 0,
              num_addrs_failed := 0 }
  else st

/-- Observable outcome of one `retransmit` call. -/
structure RetransmitOut where
  res : Except RecvTimeoutError Unit
  state : RetransmitState
  sends : List (List Nat × List Nat)
  notifications : List Nat
  emitted : List (Nat × RetransmitSlotStats)

/-- The `retransmit` function for one batch.  `recv` is the outcome of
the initial `recv_timeout` on the intake channel (the `?` operator
returns its error before anything else runs); `pending` is what
`try_iter` drains on success. -/
def retransmit (env : RetransmitEnv) (rpc_subscriptions : Bool)
    (recv : Except RecvTimeoutError (List Shred))
    (pending : List (List Shred)) (st : RetransmitState) : RetransmitOut :=
  match recv with
  | .error e => ⟨.error e, st, [], [], []⟩
  | .ok batch =>
    let shreds := batch ++ pending.flatten
    let st1 := { st with num_shreds := st.num_shreds + shreds.length,
                         total_batches := st.total_batches + 1 }
    let st2 := { st1 with shred_deduper :=
                            st1.shred_deduper.maybe_reset env.deduper_reset_due }
    let r := retransmitShreds env rpc_subscriptions shreds st2 []
    let u := upsert_slot_stats r.state.slot_stats r.slot_stats_map
    let st3 := { r.state with slot_stats := u.1 }
    let st4 := maybe_submit st3 env.submit_due
    ⟨.ok (), st4, r.sends, r.notifications, u.2⟩

/-- A minimal concrete environment for witnesses: no slot has a known
leader, every address is valid, sends never fail, and neither the
deduper reset nor the stats submission is due. -/
def envNoLeader : RetransmitEnv :=
  ⟨0, fun _ => none, fun _ _ => (0, []), fun _ => true, 0, false, false,
    fun _ _ => 0⟩

/-! ## Theorems -/

/-- C2: for every shred `s` and a fresh `ShredDeduper`, calling `dedup(s)`
twice in succession returns `false` on the first call and `true` on the
second call: an exact payload replay is always dropped. -/
theorem dedup_exact_replay_rejected (s : Shred) :
    (ShredDeduper.new.dedup s MAX_DUPLICATE_COUNT).1 = false ∧
    ((ShredDeduper.new.dedup s MAX_DUPLICATE_COUNT).2.dedup s
        MAX_DUPLICATE_COUNT).1 = true := by
  simp [ShredDeduper.new, ShredDeduper.dedup, Deduper.dedup, dedupIdAll,
    MAX_DUPLICATE_COUNT, List.range_succ]

/-- C1: for a fixed shred position (identical `ShredId`), a fresh
`ShredDeduper` admits (returns `false` for) the first two of three
pairwise-distinct payloads presented in sequence and rejects the third:
at most `MAX_DUPLICATE_COUNT = 2` distinct encodings per id pass within
one deduper epoch. -/
theorem dedup_admits_at_most_two_encodings (s1 s2 s3 : Shred)
    (hid2 : s2.id = s1.id) (hid3 : s3.id = s1.id)
    (h12 : s1.payload ≠ s2.payload) (h13 : s1.payload ≠ s3.payload)
    (h23 : s2.payload ≠ s3.payload) :
    (ShredDeduper.new.dedup s1 MAX_DUPLICATE_COUNT).1 = false ∧
    ((ShredDeduper.new.dedup s1 MAX_DUPLICATE_COUNT).2.dedup s2
        MAX_DUPLICATE_COUNT).1 = false ∧
    (((ShredDeduper.new.dedup s1 MAX_DUPLICATE_COUNT).2.dedup s2
        MAX_DUPLICATE_COUNT).2.dedup s3 MAX_DUPLICATE_COUNT).1 = true := by
  simp [ShredDeduper.new, ShredDeduper.dedup, Deduper.dedup, dedupIdAll,
    MAX_DUPLICATE_COUNT, List.range_succ, hid2, hid3,
    Ne.symm h12, Ne.symm h13, Ne.symm h23]

/-- C1 witness: the three-shred scenario at slot 1, index 5 with payloads
`[0]`, `[2]`, `[8]`. -/
theorem dedup_admits_at_most_two_encodings_witness :
    ((⟨1, 5, .data, [0]⟩ : Shred).id = (⟨1, 5, .data, [0]⟩ : Shred).id) ∧
    (ShredDeduper.new.dedup ⟨1, 5, .data, [0]⟩ MAX_DUPLICATE_COUNT).1 = false ∧
    ((ShredDeduper.new.dedup ⟨1, 5, .data, [0]⟩ MAX_DUPLICATE_COUNT).2.dedup
        ⟨1, 5, .data, [2]⟩ MAX_DUPLICATE_COUNT).1 = false ∧
    (((ShredDeduper.new.dedup ⟨1, 5, .data, [0]⟩ MAX_DUPLICATE_COUNT).2.dedup
        ⟨1, 5, .data, [2]⟩ MAX_DUPLICATE_COUNT).2.dedup ⟨1, 5, .data, [8]⟩
        MAX_DUPLICATE_COUNT).1 = true :=
  ⟨rfl,
    dedup_admits_at_most_two_encodings ⟨1, 5, .data, [0]⟩ ⟨1, 5, .data, [2]⟩
      ⟨1, 5, .data, [8]⟩ (by decide) (by decide) (by decide) (by decide)
      (by decide)⟩

/-- C8: when the payload filter already holds the shred's exact payload,
`dedup` returns `true` without touching the shred-id filter (the Rust
`||` short-circuits), so exact replays never consume any of the per-id
slots: the whole `ShredDeduper` state is returned unchanged. -/
theorem dedup_payload_hit_short_circuits (sd : ShredDeduper) (s : Shred)
    (n : Nat) (h : s.payload ∈ sd.deduper.elems) :
    sd.dedup s n = (true, sd) := by
  simp [ShredDeduper.dedup, Deduper.dedup, h]

/-- C8 witness: a deduper whose payload filter holds `[1, 2]` returns
`true` and is unchanged on a shred with that payload. -/
theorem dedup_payload_hit_short_circuits_witness :
    ((⟨1, 5, .data, [1, 2]⟩ : Shred).payload ∈
        (⟨⟨[[1, 2]]⟩, ⟨[]⟩⟩ : ShredDeduper).deduper.elems) ∧
    (⟨⟨[[1, 2]]⟩, ⟨[]⟩⟩ : ShredDeduper).dedup ⟨1, 5, .data, [1, 2]⟩
        MAX_DUPLICATE_COUNT = (true, ⟨⟨[[1, 2]]⟩, ⟨[]⟩⟩) :=
  ⟨by decide,
    dedup_payload_hit_short_circuits ⟨⟨[[1, 2]]⟩, ⟨[]⟩⟩ ⟨1, 5, .data, [1, 2]⟩
      MAX_DUPLICATE_COUNT (by decide)⟩

/-- C3 counterexample: the claimed merge law fails when the right
operand's `outset` is zero.  With `self.outset = 5` and `other.outset = 0`,
`add_assign` computes `min 5 0 = 0`, while the claim (zero treated as
unset, never overwriting a non-zero value) demands `5`. -/
theorem add_assign_outset_zero_counterexample :
    ¬ (((⟨0, 5, fun _ => 0, fun _ => 0⟩ : RetransmitSlotStats).add
          ⟨0, 0, fun _ => 0, fun _ => 0⟩).outset =
        outsetMergeSpec 5 0) := by
  decide

/-- C3 amended: `add_assign` sets `asof` to the maximum, adds the
counters pointwise at each distance, and sets `outset` to the right
operand's value when the left is zero and to the plain minimum
otherwise; whenever the right operand's `outset` is non-zero this
coincides with the spec's min-of-non-zero law, but a zero right operand
overwrites a non-zero left `outset` with zero. -/
theorem add_assign_merge_law (a b : RetransmitSlotStats)
    (h : b.outset ≠ 0) :
    (a.add b).asof = max a.asof b.asof ∧
    (a.add b).outset = outsetMergeSpec a.outset b.outset ∧
    (∀ k, (a.add b).num_shreds_received k =
      a.num_shreds_received k + b.num_shreds_received k) ∧
    (∀ k, (a.add b).num_shreds_sent k =
      a.num_shreds_sent k + b.num_shreds_sent k) := by
  refine ⟨rfl, ?_, fun k => rfl, fun k => rfl⟩
  simp only [RetransmitSlotStats.add, outsetMergeSpec, h, if_false]

/-- C3 witness: the amended merge law at `outset` values 5 and 7. -/
theorem add_assign_merge_law_witness :
    ((⟨0, 7, fun _ => 0, fun _ => 0⟩ : RetransmitSlotStats).outset ≠ 0) ∧
    ((⟨3, 5, fun _ => 0, fun _ => 0⟩ : RetransmitSlotStats).add
        ⟨0, 7, fun _ => 0, fun _ => 0⟩).outset = outsetMergeSpec 5 7 :=
  ⟨by decide,
    (add_assign_merge_law ⟨3, 5, fun _ => 0, fun _ => 0⟩
      ⟨0, 7, fun _ => 0, fun _ => 0⟩ (by decide)).2.1⟩

/-- C4 counterexample: with 4 cpus and 10 sockets the code builds
`max (min 4 8) 10 = 10` worker threads, not `min (max 4 10) 8 = 8`, and
the pool size exceeds 8. -/
theorem num_threads_cap_counterexample :
    ¬ (num_threads 4 10 = min (max 4 10) 8 ∧ num_threads 4 10 ≤ 8) := by
  decide

/-- C4 amended: the worker pool has `max (min cpu_count 8) socket_count`
threads; whenever the socket count is at most 8 this equals
`min (max cpu_count socket_count) 8`, but with more than 8 sockets the
pool grows to the socket count, so the size is only bounded by
`max 8 socket_count`. -/
theorem num_threads_characterization (cpu sockets : Nat)
    (h : sockets ≤ 8) :
    num_threads cpu sockets = min (max cpu sockets) 8 ∧
    num_threads cpu sockets ≤ max 8 sockets := by
  unfold num_threads
  omega

/-- C4 witness: 12 cpus and 3 sockets give `min (max 12 3) 8 = 8`
workers. -/
theorem num_threads_characterization_witness :
    (3 ≤ 8) ∧ num_threads 12 3 = min (max 12 3) 8 ∧
    num_threads 12 3 ≤ max 8 3 :=
  ⟨by decide, (num_threads_characterization 12 3 (by decide)).1,
    (num_threads_characterization 12 3 (by decide)).2⟩

/-- Helper: the capacity loop keeps a cache of at most
`SLOT_STATS_CACHE_CAPACITY` entries and emits exactly the entries it
removes: emitted and kept entries together are the input cache. -/
theorem evictLoop_spec (c : SlotStatsCache) :
    (evictLoop c).2 ++ (evictLoop c).1 = c ∧
    (evictLoop c).1.length ≤ SLOT_STATS_CACHE_CAPACITY := by
  induction c with
  | nil => simp [evictLoop]
  | cons e rest ih =>
    by_cases h : SLOT_STATS_CACHE_CAPACITY < (e :: rest).length
    · rw [evictLoop, if_pos h]
      exact ⟨by simpa using ih.1, ih.2⟩
    · rw [evictLoop, if_neg h]
      exact ⟨rfl, Nat.le_of_not_lt h⟩

/-- C5: after `upsert_slot_stats` the slot-stats cache holds at most
`SLOT_STATS_CACHE_CAPACITY = 750` entries, and the emitted
`retransmit-stage-slot-stats` records are exactly the evicted entries:
the emitted list followed by the kept cache is precisely the cache after
the insertion phase, so every evicted entry is submitted exactly once
and nothing else is submitted. -/
theorem upsert_slot_stats_bound_and_emission (cache : SlotStatsCache)
    (feed : List (Nat × RetransmitSlotStats)) :
    (upsert_slot_stats cache feed).1.length ≤ SLOT_STATS_CACHE_CAPACITY ∧
    (upsert_slot_stats cache feed).2 ++ (upsert_slot_stats cache feed).1 =
      insertFeed cache feed :=
  ⟨(evictLoop_spec (insertFeed cache feed)).2,
    (evictLoop_spec (insertFeed cache feed)).1⟩

/-- C6: `check_if_first_shred_received` returns `false` and leaves the
tracker untouched when the slot is at or below the root slot, or when
the slot is already tracked; for a novel slot above the root it returns
`true`, inserts the slot, and — exactly when the insertion pushes the
size above 100 — prunes the set to the entries strictly greater than the
root slot. -/
theorem check_first_shred_spec (shred_slot root_bank_slot : Nat)
    (tracker : Finset Nat) :
    (shred_slot ≤ root_bank_slot →
      check_if_first_shred_received shred_slot tracker root_bank_slot =
        (false, tracker)) ∧
    (root_bank_slot < shred_slot → shred_slot ∈ tracker →
      check_if_first_shred_received shred_slot tracker root_bank_slot =
        (false, tracker)) ∧
    (root_bank_slot < shred_slot → shred_slot ∉ tracker →
      (check_if_first_shred_received shred_slot tracker root_bank_slot).1 =
        true ∧
      shred_slot ∈
        (check_if_first_shred_received shred_slot tracker root_bank_slot).2 ∧
      ((insert shred_slot tracker).card ≤ 100 →
        (check_if_first_shred_received shred_slot tracker root_bank_slot).2 =
          insert shred_slot tracker) ∧
      (100 < (insert shred_slot tracker).card →
        (check_if_first_shred_received shred_slot tracker root_bank_slot).2 =
          (insert shred_slot tracker).filter (fun x => root_bank_slot < x) ∧
        ∀ x ∈
          (check_if_first_shred_received shred_slot tracker root_bank_slot).2,
            root_bank_slot < x)) := by
  refine ⟨fun h => ?_, fun h1 h2 => ?_, fun h1 h2 => ?_⟩
  · simp [check_if_first_shred_received, h]
  · simp [check_if_first_shred_received, h2, Nat.not_le.mpr h1]
  · by_cases hc : 100 < (insert shred_slot tracker).card
    · simp only [check_if_first_shred_received, if_neg (Nat.not_le.mpr h1),
        if_neg h2, if_pos hc]
      exact ⟨trivial, Finset.mem_filter.mpr ⟨Finset.mem_insert_self _ _, h1⟩,
        fun hle => absurd hc (Nat.not_lt.mpr hle),
        fun _ => ⟨trivial, fun x hx => (Finset.mem_filter.mp hx).2⟩⟩
    · simp only [check_if_first_shred_received, if_neg (Nat.not_le.mpr h1),
        if_neg h2, if_neg hc]
      exact ⟨trivial, Finset.mem_insert_self _ _, fun _ => trivial,
        fun hcc => absurd hcc hc⟩

/-- C6 witness: slot 5 over root slot 2 on an empty tracker is novel:
the call returns `true` and the tracker becomes `{5}` (no prune at
size 1). -/
theorem check_first_shred_spec_witness :
    (2 < 5) ∧ (5 ∉ (∅ : Finset Nat)) ∧
    ((insert 5 (∅ : Finset Nat)).card ≤ 100) ∧
    (check_if_first_shred_received 5 ∅ 2).1 = true ∧
    (check_if_first_shred_received 5 ∅ 2).2 = insert 5 ∅ :=
  ⟨by decide, by decide, by decide,
    ((check_first_shred_spec 5 2 ∅).2.2 (by decide) (by decide)).1,
    ((check_first_shred_spec 5 2 ∅).2.2 (by decide) (by decide)).2.2.1
      (by decide)⟩

/-- C7: a shred whose slot has no known leader and which passes the
deduper is skipped after the leader lookup: no send is issued, the
`unknown_shred_slot_leader` counter grows by exactly one, the closure
returns `None`, and consequently the per-batch slot-stats map gets no
entry for it. -/
theorem retransmit_shred_unknown_leader (env : RetransmitEnv)
    (rpc_subscriptions : Bool) (st : RetransmitState) (shred : Shred)
    (hleader : env.slot_leader_at shred.slot = none)
    (hdedup : (st.shred_deduper.dedup shred MAX_DUPLICATE_COUNT).1 = false) :
    (retransmit_shred env rpc_subscriptions st shred).result = none ∧
    (retransmit_shred env rpc_subscriptions st shred).sends = [] ∧
    (retransmit_shred env rpc_subscriptions st shred).state.unknown_shred_slot_leader
      = st.unknown_shred_slot_leader + 1 ∧
    ∀ acc,
      (retransmitShreds env rpc_subscriptions [shred] st acc).slot_stats_map =
        acc := by
  simp [retransmit_shred, retransmitShreds, hdedup, hleader]

/-- C7 witness: one fresh shred in a fresh state under an environment
with no known leaders: the closure yields nothing, sends nothing, and
the unknown-leader counter reads 1. -/
theorem retransmit_shred_unknown_leader_witness :
    (envNoLeader.slot_leader_at 1 = none) ∧
    ((RetransmitState.new.shred_deduper.dedup ⟨1, 5, .data, [0]⟩
        MAX_DUPLICATE_COUNT).1 = false) ∧
    (retransmit_shred envNoLeader true RetransmitState.new
        ⟨1, 5, .data, [0]⟩).result = none ∧
    (retransmit_shred envNoLeader true RetransmitState.new
        ⟨1, 5, .data, [0]⟩).sends = [] ∧
    (retransmit_shred envNoLeader true RetransmitState.new
        ⟨1, 5, .data, [0]⟩).state.unknown_shred_slot_leader =
      RetransmitState.new.unknown_shred_slot_leader + 1 :=
  ⟨rfl, by decide,
    (retransmit_shred_unknown_leader envNoLeader true RetransmitState.new
      ⟨1, 5, .data, [0]⟩ rfl (by decide)).1,
    (retransmit_shred_unknown_leader envNoLeader true RetransmitState.new
      ⟨1, 5, .data, [0]⟩ rfl (by decide)).2.1,
    (retransmit_shred_unknown_leader envNoLeader true RetransmitState.new
      ⟨1, 5, .data, [0]⟩ rfl (by decide)).2.2.1⟩

/-- C9: when the initial receive on the intake channel fails (with
`Timeout` or `Disconnected`), `retransmit` returns that error having
touched nothing: the state — deduper filters, first-shred tracker,
counters and the slot-stats cache — is returned exactly as given, and no
send, notification or slot-stats emission happens. -/
theorem retransmit_recv_error_propagates (env : RetransmitEnv)
    (rpc_subscriptions : Bool) (e : RecvTimeoutError)
    (pending : List (List Shred)) (st : RetransmitState) :
    retransmit env rpc_subscriptions (Except.error e) pending st =
      ⟨Except.error e, st, [], [], []⟩ :=
  rfl

/-- Helper: with no RPC subscription sink, one `retransmit_shred` call
produces no notification and leaves the first-shreds tracker unchanged. -/
theorem retransmit_shred_no_rpc (env : RetransmitEnv)
    (st : RetransmitState) (shred : Shred) :
    (retransmit_shred env false st shred).notifications = [] ∧
    (retransmit_shred env false st shred).state.first_shreds_received =
      st.first_shreds_received := by
  unfold retransmit_shred
  by_cases h : (st.shred_deduper.dedup shred MAX_DUPLICATE_COUNT).1
  · simp [h]
  · simp only [Bool.not_eq_true] at h
    cases hl : env.slot_leader_at shred.slot <;> simp [h, hl]

/-- Helper: with no RPC subscription sink, the whole per-batch loop
produces no notification and leaves the first-shreds tracker unchanged. -/
theorem retransmitShreds_no_rpc (env : RetransmitEnv)
    (shreds : List Shred) :
    ∀ (st : RetransmitState) (acc : List (Nat × RetransmitSlotStats)),
      (retransmitShreds env false shreds st acc).notifications = [] ∧
      (retransmitShreds env false shreds st acc).state.first_shreds_received =
        st.first_shreds_received := by
  induction shreds with
  | nil => intro st acc; simp [retransmitShreds]
  | cons shred rest ih =>
    intro st acc
    have h1 := retransmit_shred_no_rpc env st shred
    simp only [retransmitShreds]
    constructor
    · simp [h1.1, (ih _ _).1]
    · rw [(ih _ _).2, h1.2]

/-- C10: when no RPC subscription sink is configured, `retransmit` never
produces a `FirstShredReceived` notification and never updates the
first-shreds tracker, whatever the input shreds: the first-shred check
is gated on the sink being present. -/
theorem retransmit_no_rpc_no_first_shred (env : RetransmitEnv)
    (recv : Except RecvTimeoutError (List Shred))
    (pending : List (List Shred)) (st : RetransmitState) :
    (retransmit env false recv pending st).notifications = [] ∧
    (retransmit env false recv pending st).state.first_shreds_received =
      st.first_shreds_received := by
  have hms : ∀ (s : RetransmitState) (due : Bool),
      (maybe_submit s due).first_shreds_received = s.first_shreds_received := by
    intro s due
    unfold maybe_submit
    split <;> rfl
  cases recv with
  | error e => exact ⟨rfl, rfl⟩
  | ok batch =>
    simp only [retransmit]
    refine ⟨(retransmitShreds_no_rpc env _ _ _).1, ?_⟩
    rw [hms]
    exact (retransmitShreds_no_rpc env _ _ _).2
